import Mathlib

/-!
Verification of `src/CaptureDevice.cpp` (namespace `tis_imaging`), a value
object wrapping one `struct tis_device_info` device record.

The record type `tis_device_info` and the enumeration `TIS_DEVICE_TYPE` are
declared in `device_discovery.h`, which is not part of the excerpt; they are
modelled from the spec's data-model section.  Text fields are fixed-capacity
byte buffers, modelled as lists of bytes (`List Nat`); the enumeration is
modelled as a raw `Nat`, since unrecognized values flow through verbatim.
C++ `std::string` construction from a `char` buffer reads bytes up to the
first NUL; this is the `cString` function below.
-/

namespace TisImaging

/-- Modelled from the spec: the `TIS_DEVICE_TYPE` enumeration of
`device_discovery.h` (absent from the excerpt), listed there as
{UNKNOWN, V4L2, ARAVIS, FIREWIRE}.  Raw values follow C default
enumeration numbering; out-of-range values are representable since the
spec says they flow through uninterpreted. -/
def TIS_DEVICE_TYPE_UNKNOWN : Nat := 0

/-- Raw value of the `V4L2` enumerator. -/
def TIS_DEVICE_TYPE_V4L2 : Nat := 1

/-- Raw value of the `ARAVIS` enumerator. -/
def TIS_DEVICE_TYPE_ARAVIS : Nat := 2

/-- Raw value of the `FIREWIRE` enumerator. -/
def TIS_DEVICE_TYPE_FIREWIRE : Nat := 3

/-- Modelled from the spec: fixed capacity of the `identifier` buffer of
`struct tis_device_info` (the header giving the exact size is absent;
the spec only says the field is fixed-capacity). -/
def IDENTIFIER_SIZE : Nat := 128

/-- Modelled from the spec: fixed capacity of the `name` buffer. -/
def NAME_SIZE : Nat := 128

/-- Modelled from the spec: fixed capacity of the `serial_number` buffer. -/
def SERIAL_NUMBER_SIZE : Nat := 64

/-- Modelled from the spec: `struct tis_device_info` of
`device_discovery.h` — a plain record with a type enumeration and three
fixed-capacity text fields.  A C struct is copied member-by-member
(byte-for-byte for these plain fields), which the value semantics of a
Lean structure reproduces. -/
structure tis_device_info where
  type : Nat
  identifier : List Nat
  name : List Nat
  serial_number : List Nat
deriving DecidableEq

/-- The `CaptureDevice` class: wraps exactly one `tis_device_info` by
value (member `device`). -/
structure CaptureDevice where
  device : tis_device_info
deriving DecidableEq

/-- `CaptureDevice::CaptureDevice(const struct tis_device_info&)`:
initializes `device` with a copy of `device_desc`; no other code runs. -/
def CaptureDevice.ofInfo (device_desc : tis_device_info) : CaptureDevice :=
  { device := device_desc }

/-- `CaptureDevice::CaptureDevice()`: sets `device.type` to
`TIS_DEVICE_TYPE_UNKNOWN` and `memset`s each text buffer to zero over its
full capacity. -/
def CaptureDevice.mkDefault : CaptureDevice :=
  { device :=
      { type := TIS_DEVICE_TYPE_UNKNOWN
        identifier := List.replicate IDENTIFIER_SIZE 0
        name := List.replicate NAME_SIZE 0
        serial_number := List.replicate SERIAL_NUMBER_SIZE 0 } }

/-- `CaptureDevice::operator=`: `this->device = other.device; return *this;`.
Modelled functionally: the result is the post-state of `*this`, which is
also the value the returned reference denotes. -/
def CaptureDevice.assign (self other : CaptureDevice) : CaptureDevice :=
  { self with device := other.device }

/-- `CaptureDevice::getInfo`: `return device;` — the record is returned by
value, i.e. as a copy. -/
def CaptureDevice.getInfo (self : CaptureDevice) : tis_device_info :=
  self.device

/-- `getInfo` as a `const` member call on an explicit state: the pair of
the returned record and the post-state of the object. -/
def CaptureDevice.getInfoRun (self : CaptureDevice) :
    tis_device_info × CaptureDevice :=
  (self.device, self)

/-- Reading a C `char` buffer as a `std::string`: the bytes strictly
before the first NUL byte. -/
def cString (bytes : List Nat) : List Nat :=
  bytes.takeWhile (fun b => b != 0)

/-- `CaptureDevice::getName`: `return device.name;` converted to
`std::string` (reads up to the first NUL). -/
def CaptureDevice.getName (self : CaptureDevice) : List Nat :=
  cString self.device.name

/-- `CaptureDevice::getSerial`: `return device.serial_number;` converted
to `std::string`. -/
def CaptureDevice.getSerial (self : CaptureDevice) : List Nat :=
  cString self.device.serial_number

/-- `CaptureDevice::getIdentifier`: `return device.identifier;` converted
to `std::string`. -/
def CaptureDevice.getIdentifier (self : CaptureDevice) : List Nat :=
  cString self.device.identifier

/-- `CaptureDevice::getDeviceType`: `return device.type;`. -/
def CaptureDevice.getDeviceType (self : CaptureDevice) : Nat :=
  self.device.type

/-- `CaptureDevice::getDeviceTypeAsString`: the `switch` on `device.type`
with cases V4L2, ARAVIS, FIREWIRE and a `default` arm returning `""`. -/
def CaptureDevice.getDeviceTypeAsString (self : CaptureDevice) : String :=
  if self.device.type = TIS_DEVICE_TYPE_V4L2 then "V4L2"
  else if self.device.type = TIS_DEVICE_TYPE_ARAVIS then "Aravis"
  else if self.device.type = TIS_DEVICE_TYPE_FIREWIRE then "Firewire"
  else ""

/-- The bytes kept by `cString` never include a NUL byte. -/
theorem zero_not_mem_cString (l : List Nat) : 0 ∉ cString l := by
  induction l with
  | nil => simp [cString]
  | cons a t ih =>
    by_cases ha : a = 0
    · subst ha
      simp [cString, List.takeWhile_cons]
    · simp only [cString, List.takeWhile_cons] at ih ⊢
      have ha2 : (a != 0) = true := by
        simpa using ha
      simp [ha2, List.mem_cons]
      exact ⟨fun h0 => ha h0.symm, ih⟩

/-- If a buffer contains a NUL byte, reading it as a C string drops at
least that byte, so the string is strictly shorter than the buffer. -/
theorem cString_length_lt (l : List Nat) (h : 0 ∈ l) :
    (cString l).length < l.length := by
  induction l with
  | nil => cases h
  | cons a t ih =>
    by_cases ha : a = 0
    · subst ha
      simp [cString, List.takeWhile_cons]
    · rcases List.mem_cons.mp h with h0 | h0
      · exact absurd h0.symm ha
      · have := ih h0
        simpa [cString, List.takeWhile_cons, ha, Nat.succ_lt_succ_iff]
          using this

end TisImaging

namespace TisImaging

/-- Claim C1: constructing a descriptor from a record `r` and calling
`getInfo` returns a record field-equal to `r`; the constructor stores a
byte-for-byte copy with no normalization, validation or truncation. -/
theorem construct_getInfo_roundtrip (r : tis_device_info) :
    (CaptureDevice.ofInfo r).getInfo = r := rfl

/-- Claim C2: `getDeviceTypeAsString` is a total pure function of the
stored type field, returning "V4L2", "Aravis", "Firewire" for the three
recognized enumerators and "" for UNKNOWN and every other value. -/
theorem getDeviceTypeAsString_table :
    (∀ d : CaptureDevice, d.device.type = TIS_DEVICE_TYPE_V4L2 →
        d.getDeviceTypeAsString = "V4L2") ∧
    (∀ d : CaptureDevice, d.device.type = TIS_DEVICE_TYPE_ARAVIS →
        d.getDeviceTypeAsString = "Aravis") ∧
    (∀ d : CaptureDevice, d.device.type = TIS_DEVICE_TYPE_FIREWIRE →
        d.getDeviceTypeAsString = "Firewire") ∧
    (∀ d : CaptureDevice,
        d.device.type ≠ TIS_DEVICE_TYPE_V4L2 →
        d.device.type ≠ TIS_DEVICE_TYPE_ARAVIS →
        d.device.type ≠ TIS_DEVICE_TYPE_FIREWIRE →
        d.getDeviceTypeAsString = "") := by
  refine ⟨?_, ?_, ?_, ?_⟩ <;> intro d
  · intro h
    simp [CaptureDevice.getDeviceTypeAsString, h]
  · intro h
    simp [CaptureDevice.getDeviceTypeAsString, h,
      TIS_DEVICE_TYPE_V4L2, TIS_DEVICE_TYPE_ARAVIS]
  · intro h
    simp [CaptureDevice.getDeviceTypeAsString, h, TIS_DEVICE_TYPE_V4L2,
      TIS_DEVICE_TYPE_ARAVIS, TIS_DEVICE_TYPE_FIREWIRE]
  · intro h1 h2 h3
    simp [CaptureDevice.getDeviceTypeAsString, h1, h2, h3]

/-- Witness for claim C2 at concrete type values 1 (V4L2) and 9
(unrecognized). -/
theorem getDeviceTypeAsString_table_witness :
    (CaptureDevice.ofInfo ⟨1, [], [], []⟩).getDeviceTypeAsString = "V4L2" ∧
    (CaptureDevice.ofInfo ⟨9, [], [], []⟩).getDeviceTypeAsString = "" :=
  ⟨getDeviceTypeAsString_table.1 (CaptureDevice.ofInfo ⟨1, [], [], []⟩) rfl,
   getDeviceTypeAsString_table.2.2.2 (CaptureDevice.ofInfo ⟨9, [], [], []⟩)
     (by decide) (by decide) (by decide)⟩

/-- Claim C3: after default construction the type is UNKNOWN, all three
text accessors return the empty string, and every field is zero-filled
over its full capacity. -/
theorem default_construct_zeroed :
    CaptureDevice.mkDefault.getDeviceType = TIS_DEVICE_TYPE_UNKNOWN ∧
    CaptureDevice.mkDefault.getName = [] ∧
    CaptureDevice.mkDefault.getSerial = [] ∧
    CaptureDevice.mkDefault.getIdentifier = [] ∧
    CaptureDevice.mkDefault.device.identifier
      = List.replicate IDENTIFIER_SIZE 0 ∧
    CaptureDevice.mkDefault.device.name = List.replicate NAME_SIZE 0 ∧
    CaptureDevice.mkDefault.device.serial_number
      = List.replicate SERIAL_NUMBER_SIZE 0 :=
  ⟨rfl, by decide, by decide, by decide, rfl, rfl, rfl⟩

/-- Claim C4: after `d.assign other`, `d.getInfo` is field-equal to
`other.getInfo`; the assignment replaces the entire wrapped record (the
result is exactly a descriptor wrapping a copy of `other`'s record, which
is also the value of the returned `*this` reference). -/
theorem assign_copies_record (d other : CaptureDevice) :
    (d.assign other).getInfo = other.getInfo ∧
    d.assign other = CaptureDevice.ofInfo other.device :=
  ⟨rfl, rfl⟩

/-- Claim C5: `getInfo` is side-effect free (the post-state equals the
pre-state) and returns a copy of the wrapped record, not a reference into
the descriptor. -/
theorem getInfo_pure_copy (d : CaptureDevice) :
    (d.getInfoRun).2 = d ∧
    (d.getInfoRun).1 = d.device ∧
    d.getInfo = d.device :=
  ⟨rfl, rfl, rfl⟩

/-- Claim C6: `getName`, `getSerial` and `getIdentifier` each return the
stored text field read as an owned C string, with no transformation and
no trimming, and a zero-filled buffer of any capacity reads back as the
empty string. -/
theorem text_accessors_return_fields (d : CaptureDevice) :
    d.getName = cString d.device.name ∧
    d.getSerial = cString d.device.serial_number ∧
    d.getIdentifier = cString d.device.identifier ∧
    ∀ n : Nat, cString (List.replicate n 0) = [] := by
  refine ⟨rfl, rfl, rfl, ?_⟩
  intro n
  cases n with
  | zero => rfl
  | succ m => simp [cString, List.replicate, List.takeWhile_cons]

/-- Claim C7: construction from a record performs no validation — any
record, including one with an out-of-range type value, is stored as-is,
and `getDeviceType` afterwards returns exactly the raw supplied value. -/
theorem construct_no_validation (r : tis_device_info) :
    CaptureDevice.ofInfo r = { device := r } ∧
    (CaptureDevice.ofInfo r).getDeviceType = r.type :=
  ⟨rfl, rfl⟩

/-- Claim C8: when a stored text field contains an embedded NUL byte, the
string accessors return only the bytes preceding the first NUL (strictly
fewer bytes than the buffer, never containing NUL), while `getInfo` still
returns the full field including the bytes after that NUL. -/
theorem accessors_stop_at_nul (d : CaptureDevice)
    (hn : 0 ∈ d.device.name)
    (hs : 0 ∈ d.device.serial_number)
    (hi : 0 ∈ d.device.identifier) :
    (d.getName = d.device.name.takeWhile (fun b => b != 0) ∧
      0 ∉ d.getName ∧ d.getName.length < d.device.name.length ∧
      d.getInfo.name = d.device.name) ∧
    (d.getSerial = d.device.serial_number.takeWhile (fun b => b != 0) ∧
      0 ∉ d.getSerial ∧
      d.getSerial.length < d.device.serial_number.length ∧
      d.getInfo.serial_number = d.device.serial_number) ∧
    (d.getIdentifier = d.device.identifier.takeWhile (fun b => b != 0) ∧
      0 ∉ d.getIdentifier ∧
      d.getIdentifier.length < d.device.identifier.length ∧
      d.getInfo.identifier = d.device.identifier) :=
  ⟨⟨rfl, zero_not_mem_cString _, cString_length_lt _ hn, rfl⟩,
   ⟨rfl, zero_not_mem_cString _, cString_length_lt _ hs, rfl⟩,
   ⟨rfl, zero_not_mem_cString _, cString_length_lt _ hi, rfl⟩⟩

/-- Witness for claim C8 on a concrete record carrying an embedded NUL in
each text field. -/
theorem accessors_stop_at_nul_witness :
    ((CaptureDevice.ofInfo ⟨1, [47, 0, 9], [85, 0, 3], [83, 0]⟩).getName
        = ([85, 0, 3] : List Nat).takeWhile (fun b => b != 0) ∧
      0 ∉ (CaptureDevice.ofInfo ⟨1, [47, 0, 9], [85, 0, 3], [83, 0]⟩).getName ∧
      (CaptureDevice.ofInfo
          ⟨1, [47, 0, 9], [85, 0, 3], [83, 0]⟩).getName.length
        < ([85, 0, 3] : List Nat).length ∧
      (CaptureDevice.ofInfo ⟨1, [47, 0, 9], [85, 0, 3], [83, 0]⟩).getInfo.name
        = [85, 0, 3]) ∧
    ((CaptureDevice.ofInfo ⟨1, [47, 0, 9], [85, 0, 3], [83, 0]⟩).getSerial
        = ([83, 0] : List Nat).takeWhile (fun b => b != 0) ∧
      0 ∉ (CaptureDevice.ofInfo
          ⟨1, [47, 0, 9], [85, 0, 3], [83, 0]⟩).getSerial ∧
      (CaptureDevice.ofInfo
          ⟨1, [47, 0, 9], [85, 0, 3], [83, 0]⟩).getSerial.length
        < ([83, 0] : List Nat).length ∧
      (CaptureDevice.ofInfo
          ⟨1, [47, 0, 9], [85, 0, 3], [83, 0]⟩).getInfo.serial_number
        = [83, 0]) ∧
    ((CaptureDevice.ofInfo ⟨1, [47, 0, 9], [85, 0, 3], [83, 0]⟩).getIdentifier
        = ([47, 0, 9] : List Nat).takeWhile (fun b => b != 0) ∧
      0 ∉ (CaptureDevice.ofInfo
          ⟨1, [47, 0, 9], [85, 0, 3], [83, 0]⟩).getIdentifier ∧
      (CaptureDevice.ofInfo
          ⟨1, [47, 0, 9], [85, 0, 3], [83, 0]⟩).getIdentifier.length
        < ([47, 0, 9] : List Nat).length ∧
      (CaptureDevice.ofInfo
          ⟨1, [47, 0, 9], [85, 0, 3], [83, 0]⟩).getInfo.identifier
        = [47, 0, 9]) :=
  accessors_stop_at_nul (CaptureDevice.ofInfo ⟨1, [47, 0, 9], [85, 0, 3], [83, 0]⟩)
    (by decide) (by decide) (by decide)

/-- Claim C9: `getDeviceTypeAsString` depends only on the type field —
two descriptors with equal stored types yield identical strings
regardless of the text fields. -/
theorem getDeviceTypeAsString_noninterference (d1 d2 : CaptureDevice)
    (h : d1.device.type = d2.device.type) :
    d1.getDeviceTypeAsString = d2.getDeviceTypeAsString := by
  simp [CaptureDevice.getDeviceTypeAsString, h]

/-- Witness for claim C9: two descriptors with the same type but
different identifier, name and serial fields. -/
theorem getDeviceTypeAsString_noninterference_witness :
    (CaptureDevice.ofInfo ⟨1, [1], [2], [3]⟩).getDeviceTypeAsString
      = (CaptureDevice.ofInfo ⟨1, [9], [8], [7]⟩).getDeviceTypeAsString :=
  getDeviceTypeAsString_noninterference
    (CaptureDevice.ofInfo ⟨1, [1], [2], [3]⟩)
    (CaptureDevice.ofInfo ⟨1, [9], [8], [7]⟩) rfl

/-- Claim C10: self-assignment is safe and is the identity — after
`d.assign d`, the descriptor and its `getInfo` value are unchanged. -/
theorem self_assign_identity (d : CaptureDevice) :
    d.assign d = d ∧ (d.assign d).getInfo = d.getInfo :=
  ⟨rfl, rfl⟩

end TisImaging
